import Mathlib

/-!
# Verification of the siis strategy trade state machine

Shallow embedding of the trade state machine of the siis trading engine:
the base class `StrategyTrade` (strategy/strategytrade.py) and its
indivisible-margin specialization `StrategyIndMarginTrade`
(strategy/strategyindmargintrade.py), plus the entry-filtering fragment of
`CryptoAlphaStrategyTrader.process` (strategy/cryptoalpha/castrategytrader.py).

Modelling conventions:
* Python floats are modelled as rationals (`ℚ`); the arithmetic performed by
  the code is embedded exactly, with explicit branches where Python would
  raise `ZeroDivisionError`.
* Optional event payload entries (`data.get('key')`) are `Option ℚ` /
  `Option Nat`; the pervasive Python pattern
  `data.get(k) is not None and data[k] > 0` is the predicate `posOpt`.
* Both Python classes declare `__slots__`, and neither slot list contains
  `_create_oid`, `_create_ref_oid`, `_limit_oid`, `_stop_oid`.  The cleanup
  statements `self._create_oid = None` (and friends) in `order_signal`
  therefore raise `AttributeError` at runtime.  Stateful methods are embedded
  as functions returning `StrategyTrade × Option PyErr`: the returned trade
  carries exactly the field mutations applied before the raise point (Python
  mutates the object in place, so those mutations survive the exception), and
  the error component records the exception, `none` meaning normal return.
* Only the single trade variant present in the source tree is embedded, so
  the base-class fields and the indivisible-margin fields live in one
  structure.
-/

namespace Siis

/-- Trade/order states (`StrategyTrade.STATE_*` constants). -/
inductive TradeState where
  | undefined
  | new
  | rejected
  | deleted
  | canceled
  | opened
  | partiallyFilled
  | filled
deriving DecidableEq, Repr

/-- A Python scalar value.  Needed because `StrategyTrade.loads` stores the
raw dumped value into `self._trade_type`: the int-valued field can end up
holding a string after a load. -/
inductive PyVal where
  | pyInt (n : Int)
  | pyStr (s : String)
deriving DecidableEq, Repr

/-- Exceptions that the embedded methods can raise. -/
inductive PyErr where
  | zeroDivisionError
  | attributeError
deriving DecidableEq, Repr

/-- The statistics record `StrategyTrade._stats`.  It is dumped and loaded
wholesale by the persistence code. -/
structure TradeStats where
  best_price : ℚ
  best_timestamp : ℚ
  worst_price : ℚ
  worst_timestamp : ℚ
  entry_maker : Bool
  exit_maker : Bool
  entry_fees : ℚ
  exit_fees : ℚ
deriving DecidableEq, Repr

/-- `_stats` as initialised by `StrategyTrade.__init__`. -/
def TradeStats.init : TradeStats :=
  { best_price := 0
    best_timestamp := 0
    worst_price := 0
    worst_timestamp := 0
    entry_maker := false
    exit_maker := false
    entry_fees := 0
    exit_fees := 0 }

/-- The trade record: fields of `StrategyTrade` (strategytrade.py) together
with the `StrategyIndMarginTrade` extension fields (strategyindmargintrade.py).
Field names follow the source (`_entry_state` → `entry_state`, etc.). -/
structure StrategyTrade where
  /-- `self._trade_type`; an int constant normally, but `loads` can store a
  string into it. -/
  trade_type : PyVal
  entry_state : TradeState
  exit_state : TradeState
  timeframe : Int
  user_trade : Bool
  id : Int
  /-- direction: 1 long, -1 short -/
  dir : Int
  /-- ordered price (limit) -/
  op : ℚ
  /-- ordered quantity -/
  oq : ℚ
  /-- take-profit price -/
  tp : ℚ
  /-- stop-loss price -/
  sl : ℚ
  /-- average entry price -/
  aep : ℚ
  /-- average exit price -/
  axp : ℚ
  /-- entry order opened timestamp -/
  eot : ℚ
  /-- exit order opened timestamp -/
  xot : ℚ
  /-- current filled entry quantity -/
  e : ℚ
  /-- current filled exit quantity -/
  x : ℚ
  /-- profit/loss rate -/
  pl : ℚ
  /-- partial take-profit rate -/
  ptp : ℚ
  stats : TradeStats
  -- StrategyIndMarginTrade extension
  create_ref_oid : Option Nat
  stop_ref_oid : Option Nat
  limit_ref_oid : Option Nat
  create_oid : Option Nat
  stop_oid : Option Nat
  limit_oid : Option Nat
  position_id : Option Nat
  stop_order_qty : ℚ
  limit_order_qty : ℚ
deriving DecidableEq, Repr

namespace StrategyTrade

/-- `StrategyTrade.TRADE_*` type constants. -/
def TRADE_UNDEFINED : Int := -1

def TRADE_ASSET : Int := 0

def TRADE_MARGIN : Int := 1

def TRADE_IND_MARGIN : Int := 2

/-- `StrategyIndMarginTrade.__init__(timeframe)` (which invokes
`StrategyTrade.__init__(TRADE_IND_MARGIN, timeframe)`). -/
def init (timeframe : Int) : StrategyTrade :=
  { trade_type := PyVal.pyInt TRADE_IND_MARGIN
    entry_state := TradeState.new
    exit_state := TradeState.new
    timeframe := timeframe
    user_trade := false
    id := 0
    dir := 0
    op := 0
    oq := 0
    tp := 0
    sl := 0
    aep := 0
    axp := 0
    eot := 0
    xot := 0
    e := 0
    x := 0
    pl := 0
    ptp := 1
    stats := TradeStats.init
    create_ref_oid := none
    stop_ref_oid := none
    limit_ref_oid := none
    create_oid := none
    stop_oid := none
    limit_oid := none
    position_id := none
    stop_order_qty := 0
    limit_order_qty := 0 }

/-- `StrategyTrade.is_closed`:
`return self._exit_state == StrategyTrade.STATE_FILLED and self.x >= self.e`. -/
def is_closed (t : StrategyTrade) : Bool :=
  decide (t.exit_state = TradeState.filled ∧ t.e ≤ t.x)

/-- `StrategyTrade.is_entry_timeout(timestamp, timeout)`:
`return (self._entry_state == StrategyTrade.STATE_OPENED) and (self.e == 0)
and (self.eot > 0) and ((timestamp - self.eot) >= timeout)`. -/
def is_entry_timeout (t : StrategyTrade) (timestamp timeout : ℚ) : Bool :=
  decide (t.entry_state = TradeState.opened ∧ t.e = 0 ∧ 0 < t.eot ∧
    timeout ≤ timestamp - t.eot)

end StrategyTrade

/-- `data.get(key) is not None and data[key] > 0` on an optional numeric
payload entry. -/
def posOpt (o : Option ℚ) : Bool :=
  match o with
  | some v => decide (0 < v)
  | none => false

/-- Python truthiness of an optional numeric payload entry
(`if data.get('stop-loss'):`). -/
def truthyOpt (o : Option ℚ) : Bool :=
  match o with
  | some v => decide (v ≠ 0)
  | none => false

/-- Payload of a `SIGNAL_ORDER_TRADED` event (the `data` dict). -/
structure OrderTradedData where
  id : Nat
  filled : Option ℚ
  cumulative_filled : Option ℚ
  avg_price : Option ℚ
  exec_price : Option ℚ
deriving DecidableEq, Repr

/-- An order signal delivered to `order_signal`, with its payload.  For
`SIGNAL_ORDER_OPENED` the payload dict carries the assigned id, the timestamp
and optional stop-loss / take-profit entries; for deleted / canceled the
payload is the order id itself. -/
inductive OrderSignal where
  | opened (id : Nat) (timestamp : ℚ) (stop_loss take_profit : Option ℚ)
  | deleted (id : Nat)
  | canceled (id : Nat)
  | updated
  | traded (d : OrderTradedData)
deriving DecidableEq, Repr

/-- A position signal delivered to `position_signal`; the source handles only
`SIGNAL_POSITION_DELETED`, whose payload dict carries an optional exec-price. -/
inductive PositionSignal where
  | deleted (exec_price : Option ℚ)
deriving DecidableEq, Repr

namespace StrategyIndMarginTrade

/-- Filled-quantity computation at the head of each TRADED branch:
`if cum is not None and cum > 0: filled = cum - cur`
`elif fil is not None and fil > 0: filled = fil` else `filled = 0`,
where `cur` is `self.e` on the entry side and `self.x` on the exit side. -/
def tradedFilled (cum fil : Option ℚ) (cur : ℚ) : ℚ :=
  if posOpt cum then cum.getD 0 - cur
  else if posOpt fil then fil.getD 0
  else 0

/-- Cumulative update of the filled entry quantity:
`if data.get('cumulative-filled') is not None: self.e = data.get('cumulative-filled')`
`else: self.e += filled`.  This re-test of the payload does not require
positivity, unlike the one in `tradedFilled`. -/
def entryQty (t : StrategyTrade) (cum : Option ℚ) (filled : ℚ) : StrategyTrade :=
  match cum with
  | some cf => { t with e := cf }
  | none => { t with e := t.e + filled }

/-- Tail of the entry TRADED branch.  When `self.e >= self.oq` the code sets
`_entry_state = FILLED` and then executes `self._create_oid = None` /
`self._create_ref_oid = None`; `_create_oid` is not a slot of either class
(both declare `__slots__`, so instances have no `__dict__`), hence that
statement raises `AttributeError` and the intended cleanup of
`create_oid` / `create_ref_oid` never happens. -/
def entryFillState (t : StrategyTrade) : StrategyTrade × Option PyErr :=
  if t.oq ≤ t.e then
    ({ t with entry_state := TradeState.filled }, some PyErr.attributeError)
  else
    ({ t with entry_state := TradeState.partiallyFilled }, none)

/-- Entry side of the `SIGNAL_ORDER_TRADED` branch
(`data['id'] == self.create_oid`). -/
def orderTradedEntry (t : StrategyTrade) (d : OrderTradedData) :
    StrategyTrade × Option PyErr :=
  let filled := tradedFilled d.cumulative_filled d.filled t.e
  if posOpt d.avg_price then
    entryFillState (entryQty { t with aep := d.avg_price.getD 0 }
      d.cumulative_filled filled)
  else if posOpt d.exec_price then
    -- `self.aep = ((self.aep * self.e) + (exec_price * filled)) / (self.e + filled)`
    if t.e + filled = 0 then
      (t, some PyErr.zeroDivisionError)
    else
      entryFillState (entryQty
        { t with aep := (t.aep * t.e + d.exec_price.getD 0 * filled) / (t.e + filled) }
        d.cumulative_filled filled)
  else
    entryFillState (entryQty { t with aep := t.op } d.cumulative_filled filled)

/-- Cumulative update of the filled exit quantity, mirroring `entryQty`. -/
def exitQty (t : StrategyTrade) (cum : Option ℚ) (filled : ℚ) : StrategyTrade :=
  match cum with
  | some cf => { t with x := cf }
  | none => { t with x := t.x + filled }

/-- Tail of the exit TRADED branch.  The FILLED test compares `self.x` with
the ordered quantity `self.oq` (not with `self.e`).  On FILLED the cleanup
statements `self._limit_oid = None` / `self._stop_oid = None` raise
`AttributeError` (non-slot attributes); one of the two guards necessarily
matches since the enclosing branch required `data['id']` to equal `limit_oid`
or `stop_oid`, so the raise always happens and `limit_oid` / `stop_oid`
stay set. -/
def exitFillState (t : StrategyTrade) : StrategyTrade × Option PyErr :=
  if t.oq ≤ t.x then
    ({ t with exit_state := TradeState.filled }, some PyErr.attributeError)
  else
    ({ t with exit_state := TradeState.partiallyFilled }, none)

/-- `self.axp = ((self.axp * self.x) + (exec_price * filled)) / (self.x + filled)`
followed by the cumulative exit-quantity update and the state tail. -/
def exitExecTail (t : StrategyTrade) (cum : Option ℚ) (p filled : ℚ) :
    StrategyTrade × Option PyErr :=
  if t.x + filled = 0 then (t, some PyErr.zeroDivisionError)
  else
    exitFillState (exitQty
      { t with axp := (t.axp * t.x + p * filled) / (t.x + filled) } cum filled)

/-- Exit side of the `SIGNAL_ORDER_TRADED` branch
(`data['id'] == self.limit_oid or data['id'] == self.stop_oid`). -/
def orderTradedExit (t : StrategyTrade) (d : OrderTradedData) :
    StrategyTrade × Option PyErr :=
  let filled := tradedFilled d.cumulative_filled d.filled t.x
  if posOpt d.avg_price then
    let avg := d.avg_price.getD 0
    -- recompute profit-loss from the authoritative average price
    if 0 < t.dir then
      if t.aep = 0 then (t, some PyErr.zeroDivisionError)
      else
        exitFillState (exitQty { t with pl := (avg - t.aep) / t.aep, axp := avg }
          d.cumulative_filled filled)
    else if t.dir < 0 then
      if t.aep = 0 then (t, some PyErr.zeroDivisionError)
      else
        exitFillState (exitQty { t with pl := (t.aep - avg) / t.aep, axp := avg }
          d.cumulative_filled filled)
    else
      exitFillState (exitQty { t with axp := avg } d.cumulative_filled filled)
  else if posOpt d.exec_price then
    let p := d.exec_price.getD 0
    -- `self.pl += ((exec_price * filled) - (self.aep * self.e)) / (self.aep * self.e)`
    if 0 < t.dir then
      if t.aep * t.e = 0 then (t, some PyErr.zeroDivisionError)
      else
        exitExecTail { t with pl := t.pl + (p * filled - t.aep * t.e) / (t.aep * t.e) }
          d.cumulative_filled p filled
    else if t.dir < 0 then
      if t.aep * t.e = 0 then (t, some PyErr.zeroDivisionError)
      else
        exitExecTail { t with pl := t.pl + (t.aep * t.e - p * filled) / (t.aep * t.e) }
          d.cumulative_filled p filled
    else
      exitExecTail t d.cumulative_filled p filled
  else
    exitFillState (exitQty t d.cumulative_filled filled)

/-- `StrategyIndMarginTrade.order_signal(signal_type, data, ref_order_id)`,
one branch per handled signal type. -/
def order_signal (t : StrategyTrade) (s : OrderSignal) (ref_order_id : Option Nat) :
    StrategyTrade × Option PyErr :=
  match s with
  | OrderSignal.opened oid ts osl otp =>
    if ref_order_id = t.create_ref_oid then
      let t1 := { t with create_oid := some oid, eot := ts }
      let t2 := if truthyOpt osl then { t1 with sl := osl.getD 0 } else t1
      let t3 := if truthyOpt otp then { t2 with tp := otp.getD 0 } else t2
      ({ t3 with entry_state := TradeState.opened }, none)
    else if ref_order_id = t.stop_ref_oid then
      ({ t with stop_oid := some oid, xot := ts }, none)
    else if ref_order_id = t.limit_ref_oid then
      ({ t with limit_oid := some oid, xot := ts }, none)
    else (t, none)
  | OrderSignal.deleted oid =>
    if t.create_oid = some oid then
      ({ t with create_ref_oid := none, create_oid := none,
                entry_state := TradeState.deleted }, none)
    else if t.limit_oid = some oid then
      ({ t with limit_ref_oid := none, limit_oid := none }, none)
    else if t.stop_oid = some oid then
      ({ t with stop_ref_oid := none, stop_oid := none }, none)
    else (t, none)
  | OrderSignal.canceled oid =>
    if t.create_oid = some oid then
      ({ t with create_ref_oid := none, create_oid := none,
                entry_state := TradeState.canceled }, none)
    else if t.limit_oid = some oid then
      ({ t with limit_ref_oid := none, limit_oid := none }, none)
    else if t.stop_oid = some oid then
      ({ t with stop_ref_oid := none, stop_oid := none }, none)
    else (t, none)
  | OrderSignal.updated => (t, none)
  | OrderSignal.traded d =>
    if t.create_oid = some d.id then orderTradedEntry t d
    else if t.limit_oid = some d.id ∨ t.stop_oid = some d.id then orderTradedExit t d
    else (t, none)

/-- `StrategyIndMarginTrade.position_signal(signal_type, data, ref_order_id)`:
on `SIGNAL_POSITION_DELETED` the position id and entry order references are
cleared, the profit-loss is adjusted for the unfilled remainder `e - x` when
an exec-price is supplied, and the exit state is set to FILLED.  Note: the
filled exit quantity `x` itself is never updated. -/
def position_signal (t : StrategyTrade) (s : PositionSignal) :
    StrategyTrade × Option PyErr :=
  match s with
  | PositionSignal.deleted exec_price =>
    let t1 := { t with position_id := none, create_oid := none, create_ref_oid := none }
    if t1.x < t1.e then
      let filled := t1.e - t1.x
      if posOpt exec_price then
        let p := exec_price.getD 0
        if 0 < t1.dir then
          if t1.aep * t1.e = 0 then (t1, some PyErr.zeroDivisionError)
          else
            ({ t1 with pl := t1.pl + (p * filled - t1.aep * t1.e) / (t1.aep * t1.e),
                       exit_state := TradeState.filled }, none)
        else if t1.dir < 0 then
          if t1.aep * t1.e = 0 then (t1, some PyErr.zeroDivisionError)
          else
            ({ t1 with pl := t1.pl + (t1.aep * t1.e - p * filled) / (t1.aep * t1.e),
                       exit_state := TradeState.filled }, none)
        else ({ t1 with exit_state := TradeState.filled }, none)
      else ({ t1 with exit_state := TradeState.filled }, none)
    else ({ t1 with exit_state := TradeState.filled }, none)

end StrategyIndMarginTrade

/-- Order types used by the trade methods.  The `Order` class itself
(trader/order.py) is outside the embedded sources. -/
inductive OrderType where
  | market
  | limit
  | stop
  | takeProfitLimit
deriving DecidableEq, Repr

/-- Modelled from the spec: `Order.is_market()` of the missing
trader/order.py.  Per the glossary (a maker order rests on the book, a taker
order is a market or aggressive order) only a plain market order is a market
order; stop and take-profit-limit children are resting child orders. -/
def orderIsMarket (ot : OrderType) : Bool :=
  match ot with
  | OrderType.market => true
  | _ => false

/-- Outcomes of the broker calls made inside a single
`modify_take_profit` / `modify_stop_loss` invocation: the boolean results of
`trader.cancel_order` and `trader.create_order`, and the ids assigned by
`trader.set_ref_order_id` and by the broker (`order.order_id`). -/
structure BrokerEnv where
  cancel_order : Bool
  create_order : Bool
  ref_order_id : Nat
  order_id : Nat
deriving DecidableEq, Repr

namespace StrategyIndMarginTrade

/-- Body of `modify_take_profit` after the cancel step: early returns on
`e == x` and `e < x`, then the creation of the replacement take-profit-limit
child for the remaining quantity `e - x` when `e > 0`. -/
def modifyTakeProfitBody (env : BrokerEnv) (t : StrategyTrade) (price : ℚ) :
    StrategyTrade × Bool :=
  if t.e = t.x then (t, true)
  else if t.e < t.x then (t, false)
  else if 0 < t.e then
    let newStats := { t.stats with exit_maker := !(orderIsMarket OrderType.takeProfitLimit) }
    let t1 := { t with limit_ref_oid := some env.ref_order_id, stats := newStats }
    if env.create_order then
      ({ t1 with limit_oid := some env.order_id, limit_order_qty := t.e - t.x,
                 tp := price }, true)
    else
      ({ t1 with limit_ref_oid := none, limit_order_qty := 0 }, false)
  else (t, false)

/-- `StrategyIndMarginTrade.modify_take_profit(trader, market_id, price)`.
If a limit child exists it is canceled first; a refused cancel aborts the
whole operation with `False` and no state change. -/
def modify_take_profit (env : BrokerEnv) (t : StrategyTrade) (price : ℚ) :
    StrategyTrade × Bool :=
  match t.limit_oid with
  | some _ =>
    if env.cancel_order then
      modifyTakeProfitBody env
        { t with limit_ref_oid := none, limit_oid := none, limit_order_qty := 0 }
        price
    else (t, false)
  | none => modifyTakeProfitBody env t price

/-- Body of `modify_stop_loss` after the cancel step, mirroring
`modifyTakeProfitBody` with a stop child. -/
def modifyStopLossBody (env : BrokerEnv) (t : StrategyTrade) (price : ℚ) :
    StrategyTrade × Bool :=
  if t.e = t.x then (t, true)
  else if t.e < t.x then (t, false)
  else if 0 < t.e then
    let newStats := { t.stats with exit_maker := !(orderIsMarket OrderType.stop) }
    let t1 := { t with stop_ref_oid := some env.ref_order_id, stats := newStats }
    if env.create_order then
      ({ t1 with stop_oid := some env.order_id, stop_order_qty := t.e - t.x,
                 sl := price }, true)
    else
      ({ t1 with stop_ref_oid := none, stop_order_qty := 0 }, false)
  else (t, false)

/-- `StrategyIndMarginTrade.modify_stop_loss(trader, market_id, price)`.
Unlike the take-profit variant, a successful cancel clears `stop_ref_oid` and
`stop_oid` but leaves `stop_order_qty` untouched (source lines 173-175). -/
def modify_stop_loss (env : BrokerEnv) (t : StrategyTrade) (price : ℚ) :
    StrategyTrade × Bool :=
  match t.stop_oid with
  | some _ =>
    if env.cancel_order then
      modifyStopLossBody env
        { t with stop_ref_oid := none, stop_oid := none } price
    else (t, false)
  | none => modifyStopLossBody env t price

end StrategyIndMarginTrade

namespace StrategyTrade

/-- `StrategyTrade.trade_type_to_str`.  The third branch repeats the
`TRADE_MARGIN` comparison (source line 418), so it is unreachable and an
indivisible-margin trade maps to "undefined". -/
def trade_type_to_str (t : StrategyTrade) : String :=
  if t.trade_type = PyVal.pyInt TRADE_ASSET then "asset"
  else if t.trade_type = PyVal.pyInt TRADE_MARGIN then "margin"
  else if t.trade_type = PyVal.pyInt TRADE_MARGIN then "indisible-margin"
  else "undefined"

end StrategyTrade

/-- The dict produced by `StrategyIndMarginTrade.dumps`: the base-class keys
written by `StrategyTrade.dumps` plus the indivisible-margin keys.  The
`version` entry (a bound method object, never read back by `loads`) is
omitted.  The `type` key holds the *string* produced by
`trade_type_to_str`. -/
structure TradeDump where
  id : Int
  type : String
  entry_state : TradeState
  exit_state : TradeState
  timeframe : Int
  user_trade : Bool
  avg_entry_price : ℚ
  avg_exit_price : ℚ
  take_profit_price : ℚ
  stop_loss_price : ℚ
  direction : Int
  entry_open_time : ℚ
  exit_open_time : ℚ
  order_qty : ℚ
  filled_entry_qty : ℚ
  filled_exit_qty : ℚ
  profit_loss_rate : ℚ
  statistics : TradeStats
  create_ref_oid : Option Nat
  stop_ref_oid : Option Nat
  limit_ref_oid : Option Nat
  create_oid : Option Nat
  stop_oid : Option Nat
  limit_oid : Option Nat
  position_id : Option Nat
  stop_order_qty : ℚ
  limit_order_qty : ℚ
deriving DecidableEq, Repr

namespace StrategyIndMarginTrade

/-- `StrategyIndMarginTrade.dumps()`: the base-class dict extended with the
order / position ids and child order quantities. -/
def dumps (t : StrategyTrade) : TradeDump :=
  { id := t.id
    type := StrategyTrade.trade_type_to_str t
    entry_state := t.entry_state
    exit_state := t.exit_state
    timeframe := t.timeframe
    user_trade := t.user_trade
    avg_entry_price := t.aep
    avg_exit_price := t.axp
    take_profit_price := t.tp
    stop_loss_price := t.sl
    direction := t.dir
    entry_open_time := t.eot
    exit_open_time := t.xot
    order_qty := t.oq
    filled_entry_qty := t.e
    filled_exit_qty := t.x
    profit_loss_rate := t.pl
    statistics := t.stats
    create_ref_oid := t.create_ref_oid
    stop_ref_oid := t.stop_ref_oid
    limit_ref_oid := t.limit_ref_oid
    create_oid := t.create_oid
    stop_oid := t.stop_oid
    limit_oid := t.limit_oid
    position_id := t.position_id
    stop_order_qty := t.stop_order_qty
    limit_order_qty := t.limit_order_qty }

/-- `StrategyIndMarginTrade.loads(data)` field restoration applied to the
receiver `t` (typically a freshly constructed trade): the base-class
`StrategyTrade.loads` assignments followed by the subclass assignments.
Two source slips are visible here: (1) the base class stores the raw dumped
value into `self._trade_type` (the commented-out `trade_type_from_str` call
is not executed), so the trade-type field receives the *string* written by
`trade_type_to_str`; (2) the subclass invokes
`super().loads(data, strategy_service)` although the base signature is
`loads(self, data)`, which raises `TypeError` at runtime -- the assignments
embedded here are the ones the source performs once the call arity is
repaired. -/
def loads (t : StrategyTrade) (data : TradeDump) : StrategyTrade :=
  { t with
    id := data.id
    trade_type := PyVal.pyStr data.type
    entry_state := data.entry_state
    exit_state := data.exit_state
    timeframe := data.timeframe
    user_trade := data.user_trade
    dir := data.direction
    oq := data.order_qty
    tp := data.take_profit_price
    sl := data.stop_loss_price
    aep := data.avg_entry_price
    axp := data.avg_exit_price
    eot := data.entry_open_time
    xot := data.exit_open_time
    e := data.filled_entry_qty
    x := data.filled_exit_qty
    pl := data.profit_loss_rate
    stats := data.statistics
    create_ref_oid := data.create_ref_oid
    stop_ref_oid := data.stop_ref_oid
    limit_ref_oid := data.limit_ref_oid
    create_oid := data.create_oid
    stop_oid := data.stop_oid
    limit_oid := data.limit_oid
    position_id := data.position_id
    stop_order_qty := data.stop_order_qty
    limit_order_qty := data.limit_order_qty }

end StrategyIndMarginTrade

/-- An entry signal candidate inside `CryptoAlphaStrategyTrader.process`.
Python falsy tests on prices (`if not entry.sl`, `if not entry.tp`) treat 0
as unset, so unset prices are modelled as 0. -/
structure EntrySignal where
  dir : Int
  price : ℚ
  tp : ℚ
  sl : ℚ
  timeframe : Int
deriving DecidableEq, Repr

namespace CryptoAlphaStrategyTrader

/-- The per-entry tail of the entry-filtering loop of
`CryptoAlphaStrategyTrader.process` (castrategytrader.py lines 242-253),
reached once the timeframe-range and region checks have retained the signal:
* stop-loss: `if not entry.sl: sl = atr.stop_loss(dir); if sl < last_price:
  entry.sl = sl` -- assigned back onto the signal;
* target: `if not entry.tp: if len(last_resistances) > 0:
  tp = last_resistances[2]` -- computed into a *local* variable `tp` that is
  never assigned back onto the signal (and the index raises `IndexError`,
  modelled as `none`, when the resistances list has one or two elements);
* the signal is then appended to `retained_entries`. -/
def filterEntryTail (atr_stop_loss last_price : ℚ) (last_resistances : List ℚ)
    (entry : EntrySignal) : Option EntrySignal :=
  let entry1 :=
    if entry.sl = 0 then
      if atr_stop_loss < last_price then { entry with sl := atr_stop_loss } else entry
    else entry
  if entry1.tp = 0 then
    if 0 < last_resistances.length then
      match last_resistances.get? 2 with
      | some _ => some entry1
      | none => none
    else some entry1
  else some entry1

/-- The take-profit argument that `process` later passes to `process_entry`
for a retained entry (castrategytrader.py line 359): the signal's own `tp`
field. -/
def submittedTakeProfit (entry : EntrySignal) : ℚ := entry.tp

end CryptoAlphaStrategyTrader

/-- The observable quadruple (e, aep, entry_state, exit_state) of a trade:
the fields whose stability under event replay the spec asserts. -/
def coreObs (t : StrategyTrade) : ℚ × ℚ × TradeState × TradeState :=
  (t.e, t.aep, t.entry_state, t.exit_state)

/-- Apply a list of order signals in arrival order, threading the trade
state: Python mutates the trade object in place and the worker loop catches
and logs exceptions between deliveries, so the mutations applied before a
raise survive into the next delivery. -/
def applySignals (t : StrategyTrade) (evs : List OrderSignal) : StrategyTrade :=
  evs.foldl (fun s ev => (StrategyIndMarginTrade.order_signal s ev none).1) t

/-- A `SIGNAL_ORDER_TRADED` event on entry order `oid` carrying cumulative
filled quantity `cp.1` and exec price `cp.2`, and no avg price. -/
def entryFillEvent (oid : Nat) (cp : ℚ × ℚ) : OrderSignal :=
  OrderSignal.traded ⟨oid, none, some cp.1, none, some cp.2⟩

/-- The cumulative-filled values of a fill sequence are strictly increasing
starting from `prev`, and every exec price is positive. -/
def strictFills : ℚ → List (ℚ × ℚ) → Prop
  | _, [] => True
  | prev, cp :: rest => prev < cp.1 ∧ 0 < cp.2 ∧ strictFills cp.1 rest

/-- Final cumulative-filled value of a fill sequence starting from `prev`. -/
def lastCum : ℚ → List (ℚ × ℚ) → ℚ
  | prev, [] => prev
  | _, cp :: rest => lastCum cp.1 rest

/-- Sum of the per-step exec prices, each weighted by its increment of
cumulative-filled, for a fill sequence starting from `prev`. -/
def weightedSum : ℚ → List (ℚ × ℚ) → ℚ
  | _, [] => 0
  | prev, cp :: rest => cp.2 * (cp.1 - prev) + weightedSum cp.1 rest

/-- One entry fill carrying cumulative quantity `c > e` and positive exec
price `p`: the filled entry quantity becomes `c`, the entry notional
`aep * e` grows by `p * (c - e)`, and the entry order id is untouched. -/
theorem entryFill_step (oid : Nat) (c p : ℚ) (t : StrategyTrade)
    (hoid : t.create_oid = some oid) (hc : t.e < c) (he : 0 ≤ t.e) (hp : 0 < p) :
    ((StrategyIndMarginTrade.order_signal t (entryFillEvent oid (c, p)) none).1).e = c ∧
    ((StrategyIndMarginTrade.order_signal t (entryFillEvent oid (c, p)) none).1).aep * c =
      t.aep * t.e + p * (c - t.e) ∧
    ((StrategyIndMarginTrade.order_signal t (entryFillEvent oid (c, p)) none).1).create_oid =
      some oid := by
  have hcpos : 0 < c := lt_of_le_of_lt he hc
  have hcne : c ≠ 0 := ne_of_gt hcpos
  have hsum : t.e + (c - t.e) = c := by ring
  refine ⟨?_, ?_, ?_⟩ <;>
    simp [StrategyIndMarginTrade.order_signal, entryFillEvent,
      StrategyIndMarginTrade.orderTradedEntry, StrategyIndMarginTrade.tradedFilled,
      StrategyIndMarginTrade.entryQty, StrategyIndMarginTrade.entryFillState,
      posOpt, hoid, hcpos, hp, hsum, hcne, apply_ite, div_mul_cancel₀]

/-- Folding a strictly increasing entry-fill sequence onto a trade whose
entry order is `oid`: the filled entry quantity tracks the final cumulative
value and the entry notional `aep * e` accumulates the weighted sum of the
exec prices. -/
theorem applySignals_entryFills (oid : Nat) (l : List (ℚ × ℚ)) :
    ∀ t : StrategyTrade, t.create_oid = some oid → 0 ≤ t.e → strictFills t.e l →
    (applySignals t (l.map (entryFillEvent oid))).e = lastCum t.e l ∧
    (applySignals t (l.map (entryFillEvent oid))).aep *
        (applySignals t (l.map (entryFillEvent oid))).e =
      t.aep * t.e + weightedSum t.e l ∧
    (applySignals t (l.map (entryFillEvent oid))).create_oid = some oid := by
  induction l with
  | nil =>
    intro t hoid _ _
    simp [applySignals, lastCum, weightedSum, hoid]
  | cons cp rest ih =>
    intro t hoid he hsf
    obtain ⟨c, p⟩ := cp
    obtain ⟨hc, hp, hrest⟩ := hsf
    obtain ⟨h1e, h1aep, h1oid⟩ := entryFill_step oid c p t hoid hc he hp
    have hcpos : 0 < c := lt_of_le_of_lt he hc
    have happ : applySignals t (((c, p) :: rest).map (entryFillEvent oid)) =
        applySignals
          ((StrategyIndMarginTrade.order_signal t (entryFillEvent oid (c, p)) none).1)
          (rest.map (entryFillEvent oid)) := rfl
    obtain ⟨ihe, ihaep, ihoid⟩ :=
      ih ((StrategyIndMarginTrade.order_signal t (entryFillEvent oid (c, p)) none).1)
        h1oid (by rw [h1e]; exact le_of_lt hcpos) (by rw [h1e]; exact hrest)
    refine ⟨?_, ?_, ?_⟩
    · rw [happ, ihe, h1e]
      simp [lastCum]
    · rw [happ, ihaep, h1e, h1aep]
      simp only [weightedSum]
      ring
    · rw [happ]
      exact ihoid

/-- The final cumulative value of a nonempty strictly increasing fill
sequence lies strictly above the start. -/
theorem lastCum_gt (l : List (ℚ × ℚ)) :
    ∀ prev : ℚ, l ≠ [] → strictFills prev l → prev < lastCum prev l := by
  induction l with
  | nil => intro prev h _; exact absurd rfl h
  | cons cp rest ih =>
    intro prev _ hsf
    obtain ⟨hc, _, hrest⟩ := hsf
    rcases eq_or_ne rest [] with hr | hr
    · subst hr
      simpa [lastCum] using hc
    · have := ih cp.1 hr hrest
      simp only [lastCum]
      exact lt_trans hc this

/-- The weighted-average result over any starting trade with zero filled
entry quantity and zero average entry price. -/
theorem applySignals_entryFills_fresh (oid : Nat) (l : List (ℚ × ℚ))
    (t : StrategyTrade) (hoid : t.create_oid = some oid) (he0 : t.e = 0)
    (haep0 : t.aep = 0) (hne : l ≠ []) (hsf : strictFills 0 l) :
    (applySignals t (l.map (entryFillEvent oid))).e = lastCum 0 l ∧
    (applySignals t (l.map (entryFillEvent oid))).aep =
      weightedSum 0 l / lastCum 0 l := by
  obtain ⟨he, haep, _⟩ :=
    applySignals_entryFills oid l t hoid (by rw [he0]) (by rw [he0]; exact hsf)
  rw [he0] at he haep
  rw [haep0] at haep
  have hpos : 0 < lastCum 0 l := lastCum_gt l 0 hne hsf
  refine ⟨he, ?_⟩
  rw [eq_div_iff (ne_of_gt hpos)]
  rw [← he]
  simpa using haep

/-- C4: applying a nonempty sequence of `SIGNAL_ORDER_TRADED` events on the
entry order, with cumulative-filled values strictly increasing from zero and
positive exec prices (no avg price), to a fresh trade yields `e` equal to the
final cumulative-filled value and `aep` equal to the quantity-weighted
average of the per-step exec prices. -/
theorem C4_aep_weighted_average (oid : Nat) (tf : Int) (l : List (ℚ × ℚ))
    (hne : l ≠ []) (hsf : strictFills 0 l) :
    (applySignals { StrategyTrade.init tf with create_oid := some oid }
        (l.map (entryFillEvent oid))).e = lastCum 0 l ∧
    (applySignals { StrategyTrade.init tf with create_oid := some oid }
        (l.map (entryFillEvent oid))).aep = weightedSum 0 l / lastCum 0 l :=
  applySignals_entryFills_fresh oid l
    { StrategyTrade.init tf with create_oid := some oid } (by simp)
    (by simp [StrategyTrade.init]) (by simp [StrategyTrade.init]) hne hsf

/-- Witness for C4 on the two-fill sequence cum 2 at price 100 then cum 5 at
price 120: final `e = 5` and `aep = (100·2 + 120·3) / 5 = 112`. -/
theorem C4_aep_weighted_average_witness :
    ([((2 : ℚ), (100 : ℚ)), (5, 120)] ≠ []) ∧
    strictFills 0 [((2 : ℚ), (100 : ℚ)), (5, 120)] ∧
    ((applySignals { StrategyTrade.init 60 with create_oid := some 5 }
        ([((2 : ℚ), (100 : ℚ)), (5, 120)].map (entryFillEvent 5))).e =
      lastCum 0 [((2 : ℚ), (100 : ℚ)), (5, 120)] ∧
     (applySignals { StrategyTrade.init 60 with create_oid := some 5 }
        ([((2 : ℚ), (100 : ℚ)), (5, 120)].map (entryFillEvent 5))).aep =
      weightedSum 0 [((2 : ℚ), (100 : ℚ)), (5, 120)] /
        lastCum 0 [((2 : ℚ), (100 : ℚ)), (5, 120)]) :=
  ⟨by simp, by norm_num [strictFills],
    C4_aep_weighted_average 5 60 [((2 : ℚ), (100 : ℚ)), (5, 120)] (by simp)
      (by norm_num [strictFills])⟩

end Siis

namespace Siis

/-! ## Theorems for the claims -/

/-- C1: on `SIGNAL_POSITION_DELETED` over a long trade with `e = 5`, `x = 2`,
`aep = 100` and exec-price 120 (the spec's scenario 4), the code sets
`exit_state = FILLED` and increments `pl` by
`dir * (p * (e - x) - aep * e) / (aep * e)`, but it never fills the
remainder: the filled exit quantity stays at `x = 2` instead of reaching
`e = 5` as the claim (and the spec's `exit_state == FILLED ⇒ x ≥ e`
invariant) requires. -/
theorem C1_position_deleted_x_never_filled :
    (let t := { StrategyTrade.init 60 with
                dir := 1, oq := 5, aep := 100, e := 5,
                x := 2, entry_state := TradeState.filled,
                exit_state := TradeState.partiallyFilled, position_id := some 9 }
     let r := StrategyIndMarginTrade.position_signal t (PositionSignal.deleted (some 120))
     r.2 = none ∧
     (r.1).exit_state = TradeState.filled ∧
     (r.1).pl = t.pl + (((120 : ℚ) * (t.e - t.x)) - t.aep * t.e) / (t.aep * t.e) ∧
     (r.1).x = 2 ∧ (r.1).e = 5 ∧ (r.1).x ≠ (r.1).e) := by
  norm_num [StrategyTrade.init, StrategyIndMarginTrade.position_signal, posOpt]

/-- C2: when a fill brings the entry (resp. exit) quantity up to the ordered
quantity the state becomes FILLED, but the self-cleanup assigns to the
non-slot attributes `_create_oid` / `_create_ref_oid` (resp. `_limit_oid` /
`_stop_oid`), raising `AttributeError`; the real `create_oid` /
`create_ref_oid` (resp. `limit_oid` / `limit_ref_oid`) are never cleared to
None, contrary to the claim. -/
theorem C2_filled_cleanup_never_happens :
    (let t := { StrategyTrade.init 60 with
                create_oid := some 7,
                create_ref_oid := some 70, oq := 10, op := 100,
                entry_state := TradeState.opened }
     let r := StrategyIndMarginTrade.order_signal t
       (OrderSignal.traded ⟨7, none, some 10, none, some 100⟩) none
     (r.1).entry_state = TradeState.filled ∧ (r.1).e = 10 ∧
       (r.1).create_oid = some 7 ∧ (r.1).create_ref_oid = some 70 ∧
       r.2 = some PyErr.attributeError) ∧
    (let t := { StrategyTrade.init 60 with
                limit_oid := some 8,
                limit_ref_oid := some 80, oq := 10, e := 10, aep := 100, dir := 1,
                entry_state := TradeState.filled }
     let r := StrategyIndMarginTrade.order_signal t
       (OrderSignal.traded ⟨8, none, some 10, none, some 110⟩) none
     (r.1).exit_state = TradeState.filled ∧ (r.1).x = 10 ∧
       (r.1).limit_oid = some 8 ∧ (r.1).limit_ref_oid = some 80 ∧
       r.2 = some PyErr.attributeError) := by
  norm_num [StrategyTrade.init, StrategyIndMarginTrade.order_signal,
    StrategyIndMarginTrade.orderTradedEntry, StrategyIndMarginTrade.orderTradedExit,
    StrategyIndMarginTrade.entryQty, StrategyIndMarginTrade.exitQty,
    StrategyIndMarginTrade.entryFillState, StrategyIndMarginTrade.exitFillState,
    StrategyIndMarginTrade.exitExecTail, StrategyIndMarginTrade.tradedFilled, posOpt]
  simp

/-- C3: the persistence round-trip does not restore the trade type.  `dumps`
serialises it through `trade_type_to_str`, which maps an indivisible-margin
trade to the string "undefined" (the `indisible-margin` branch repeats the
`TRADE_MARGIN` comparison and is unreachable), and `loads` stores that raw
string into the int-typed trade-type field. -/
theorem C3_roundtrip_type_field_broken :
    (let t := StrategyTrade.init 60
     let t2 := StrategyIndMarginTrade.loads (StrategyTrade.init 60)
       (StrategyIndMarginTrade.dumps t)
     t.trade_type = PyVal.pyInt StrategyTrade.TRADE_IND_MARGIN ∧
     t2.trade_type = PyVal.pyStr "undefined" ∧ t2.trade_type ≠ t.trade_type) := by
  refine ⟨rfl, ?_, ?_⟩ <;>
    simp [StrategyTrade.init, StrategyIndMarginTrade.loads,
      StrategyIndMarginTrade.dumps, StrategyTrade.trade_type_to_str,
      StrategyTrade.TRADE_ASSET, StrategyTrade.TRADE_MARGIN,
      StrategyTrade.TRADE_IND_MARGIN]

/-- C6 counterexample: a trade with both states FILLED but `x < e`.  The
claimed characterisation makes it closed through its first disjunct, but
`is_closed` returns false because the code requires
`exit_state == FILLED and x >= e` and ignores the entry state. -/
theorem C6_counterexample :
    ¬ (let t := { StrategyTrade.init 60 with
                  entry_state := TradeState.filled,
                  exit_state := TradeState.filled, e := 1, x := 0 }
       StrategyTrade.is_closed t = true ↔
         ((t.entry_state = TradeState.filled ∧ t.exit_state = TradeState.filled) ∨
           (0 < t.e ∧ t.e ≤ t.x))) := by
  norm_num [StrategyTrade.init, StrategyTrade.is_closed]

/-- C6 (amended): `is_closed()` returns true iff the exit state is FILLED and
the filled exit quantity has reached the filled entry quantity (`x ≥ e`). -/
theorem C6_is_closed_iff (t : StrategyTrade) :
    StrategyTrade.is_closed t = true ↔
      (t.exit_state = TradeState.filled ∧ t.e ≤ t.x) := by
  simp [StrategyTrade.is_closed]

/-- C7: for a retained entry lacking a take-profit, with four pivot
resistances available on the take-profit timeframe, the third-latest
resistance (index 2, value 115) is computed into a dead local variable: the
retained signal keeps `tp = 0` and is submitted without a take-profit,
contrary to the claim. -/
theorem C7_take_profit_not_assigned :
    let entry : EntrySignal := ⟨1, 100, 0, 50, 3600⟩
    let res : List ℚ := [110, 112, 115, 120]
    res.get? 2 = some 115 ∧
    CryptoAlphaStrategyTrader.filterEntryTail 90 100 res entry = some entry ∧
    CryptoAlphaStrategyTrader.submittedTakeProfit entry = 0 := by
  norm_num [CryptoAlphaStrategyTrader.filterEntryTail,
    CryptoAlphaStrategyTrader.submittedTakeProfit]

/-- C9 counterexample: a freshly opened trade with `eot = 0`.  The claimed
characterisation says the entry has timed out at `timestamp = 100`,
`timeout = 50`, but the code additionally requires a valid creation
timestamp (`eot > 0`) and returns false. -/
theorem C9_counterexample :
    ¬ (let t := { StrategyTrade.init 60 with entry_state := TradeState.opened }
       StrategyTrade.is_entry_timeout t 100 50 = true ↔
         (t.entry_state = TradeState.opened ∧ t.e = 0 ∧
           (50 : ℚ) ≤ 100 - t.eot)) := by
  norm_num [StrategyTrade.init, StrategyTrade.is_entry_timeout]

/-- C9 (amended): `is_entry_timeout(timestamp, timeout)` returns true iff the
entry is OPENED, nothing is filled, the entry-open timestamp is valid
(`eot > 0`), and `timestamp - eot ≥ timeout`. -/
theorem C9_is_entry_timeout_iff (t : StrategyTrade) (timestamp timeout : ℚ) :
    StrategyTrade.is_entry_timeout t timestamp timeout = true ↔
      (t.entry_state = TradeState.opened ∧ t.e = 0 ∧ 0 < t.eot ∧
        timeout ≤ timestamp - t.eot) := by
  simp [StrategyTrade.is_entry_timeout]

/-- C10: fill accounting in `order_signal` is not total.  An entry TRADED
event with a positive exec-price but no positive cumulative-filled and no
positive filled quantity, on a trade with `e = 0`, divides by
`e + filled = 0`; the analogous exit-side updates divide by `aep * e` and by
`x + filled` and raise on the same shape of input.  Each raise leaves the
trade unmodified. -/
theorem C10_zero_division_reachable :
    (let t := { StrategyTrade.init 60 with create_oid := some 1 }
     StrategyIndMarginTrade.order_signal t
       (OrderSignal.traded ⟨1, none, none, none, some 100⟩) none =
       (t, some PyErr.zeroDivisionError)) ∧
    (let t := { StrategyTrade.init 60 with limit_oid := some 2, dir := 1, e := 5 }
     StrategyIndMarginTrade.order_signal t
       (OrderSignal.traded ⟨2, none, none, none, some 100⟩) none =
       (t, some PyErr.zeroDivisionError)) ∧
    (let t := { StrategyTrade.init 60 with limit_oid := some 2, aep := 100, e := 5 }
     StrategyIndMarginTrade.order_signal t
       (OrderSignal.traded ⟨2, none, none, none, some 100⟩) none =
       (t, some PyErr.zeroDivisionError)) := by
  norm_num [StrategyTrade.init, StrategyIndMarginTrade.order_signal,
    StrategyIndMarginTrade.orderTradedEntry, StrategyIndMarginTrade.orderTradedExit,
    StrategyIndMarginTrade.exitExecTail, StrategyIndMarginTrade.tradedFilled, posOpt]
  simp

/-- C8: when the broker refuses the cancel of the existing limit (resp. stop)
child order, `modify_take_profit` (resp. `modify_stop_loss`) returns False
and the trade is returned exactly as it was: every field, including the old
child's ids and recorded quantity, the tp/sl prices, quantities and states,
is unchanged. -/
theorem C8_cancel_refused_aborts (env : BrokerEnv) (t : StrategyTrade) (price : ℚ)
    (hc : env.cancel_order = false) (hl : t.limit_oid.isSome = true)
    (hs : t.stop_oid.isSome = true) :
    StrategyIndMarginTrade.modify_take_profit env t price = (t, false) ∧
    StrategyIndMarginTrade.modify_stop_loss env t price = (t, false) := by
  obtain ⟨lv, hlv⟩ := Option.isSome_iff_exists.mp hl
  obtain ⟨sv, hsv⟩ := Option.isSome_iff_exists.mp hs
  constructor
  · simp [StrategyIndMarginTrade.modify_take_profit, hlv, hc]
  · simp [StrategyIndMarginTrade.modify_stop_loss, hsv, hc]

/-- Witness for C8 at a concrete trade and broker outcome. -/
theorem C8_cancel_refused_aborts_witness :
    (BrokerEnv.mk false true 1 2).cancel_order = false ∧
    ({ StrategyTrade.init 60 with limit_oid := some 3, stop_oid := some 4 }
      : StrategyTrade).limit_oid.isSome = true ∧
    ({ StrategyTrade.init 60 with limit_oid := some 3, stop_oid := some 4 }
      : StrategyTrade).stop_oid.isSome = true ∧
    (StrategyIndMarginTrade.modify_take_profit (BrokerEnv.mk false true 1 2)
        { StrategyTrade.init 60 with limit_oid := some 3, stop_oid := some 4 } 105 =
      ({ StrategyTrade.init 60 with limit_oid := some 3, stop_oid := some 4 }, false) ∧
     StrategyIndMarginTrade.modify_stop_loss (BrokerEnv.mk false true 1 2)
        { StrategyTrade.init 60 with limit_oid := some 3, stop_oid := some 4 } 105 =
      ({ StrategyTrade.init 60 with limit_oid := some 3, stop_oid := some 4 }, false)) :=
  ⟨rfl, rfl, rfl,
    C8_cancel_refused_aborts (BrokerEnv.mk false true 1 2)
      { StrategyTrade.init 60 with limit_oid := some 3, stop_oid := some 4 } 105
      rfl rfl rfl⟩

/-- `tradedFilled` with a positive cumulative quantity is the increment over
the current filled quantity. -/
theorem tradedFilled_pos (cum : ℚ) (hpos : 0 < cum) (fil : Option ℚ) (cur : ℚ) :
    StrategyIndMarginTrade.tradedFilled (some cum) fil cur = cum - cur := by
  simp [StrategyIndMarginTrade.tradedFilled, posOpt, hpos]

/-- `entryQty` with a present cumulative quantity overwrites `e`. -/
theorem entryQty_some_eq (t : StrategyTrade) (cf f : ℚ) :
    StrategyIndMarginTrade.entryQty t (some cf) f = { t with e := cf } := rfl

/-- `exitQty` with a present cumulative quantity overwrites `x`. -/
theorem exitQty_some_eq (t : StrategyTrade) (cf f : ℚ) :
    StrategyIndMarginTrade.exitQty t (some cf) f = { t with x := cf } := rfl

/-- The trade component of `entryFillState` in closed form. -/
theorem entryFillState_fst (t : StrategyTrade) :
    (StrategyIndMarginTrade.entryFillState t).1 =
      { t with entry_state := if t.oq ≤ t.e then TradeState.filled
                              else TradeState.partiallyFilled } := by
  unfold StrategyIndMarginTrade.entryFillState
  split_ifs <;> rfl

/-- The trade component of `exitFillState` in closed form. -/
theorem exitFillState_fst (t : StrategyTrade) :
    (StrategyIndMarginTrade.exitFillState t).1 =
      { t with exit_state := if t.oq ≤ t.x then TradeState.filled
                             else TradeState.partiallyFilled } := by
  unfold StrategyIndMarginTrade.exitFillState
  split_ifs <;> rfl

/-- The entry quantity-and-state tail never touches the order-id fields. -/
theorem entryTail_oids (s : StrategyTrade) (cum : Option ℚ) (f : ℚ) :
    (StrategyIndMarginTrade.entryFillState
        (StrategyIndMarginTrade.entryQty s cum f)).1.create_oid = s.create_oid ∧
    (StrategyIndMarginTrade.entryFillState
        (StrategyIndMarginTrade.entryQty s cum f)).1.limit_oid = s.limit_oid ∧
    (StrategyIndMarginTrade.entryFillState
        (StrategyIndMarginTrade.entryQty s cum f)).1.stop_oid = s.stop_oid := by
  cases cum <;>
    unfold StrategyIndMarginTrade.entryFillState StrategyIndMarginTrade.entryQty <;>
    split_ifs <;> exact ⟨rfl, rfl, rfl⟩

/-- The exit quantity-and-state tail never touches the order-id fields. -/
theorem exitTail_oids (s : StrategyTrade) (cum : Option ℚ) (f : ℚ) :
    (StrategyIndMarginTrade.exitFillState
        (StrategyIndMarginTrade.exitQty s cum f)).1.create_oid = s.create_oid ∧
    (StrategyIndMarginTrade.exitFillState
        (StrategyIndMarginTrade.exitQty s cum f)).1.limit_oid = s.limit_oid ∧
    (StrategyIndMarginTrade.exitFillState
        (StrategyIndMarginTrade.exitQty s cum f)).1.stop_oid = s.stop_oid := by
  cases cum <;>
    unfold StrategyIndMarginTrade.exitFillState StrategyIndMarginTrade.exitQty <;>
    split_ifs <;> exact ⟨rfl, rfl, rfl⟩

/-- `exitExecTail` never touches the order-id fields. -/
theorem exitExecTail_oids (s : StrategyTrade) (cum : Option ℚ) (p f : ℚ) :
    (StrategyIndMarginTrade.exitExecTail s cum p f).1.create_oid = s.create_oid ∧
    (StrategyIndMarginTrade.exitExecTail s cum p f).1.limit_oid = s.limit_oid ∧
    (StrategyIndMarginTrade.exitExecTail s cum p f).1.stop_oid = s.stop_oid := by
  unfold StrategyIndMarginTrade.exitExecTail
  split_ifs
  · exact ⟨rfl, rfl, rfl⟩
  · exact exitTail_oids _ cum f

/-- The entry TRADED branch never touches the order-id fields. -/
theorem orderTradedEntry_oids (t : StrategyTrade) (d : OrderTradedData) :
    (StrategyIndMarginTrade.orderTradedEntry t d).1.create_oid = t.create_oid ∧
    (StrategyIndMarginTrade.orderTradedEntry t d).1.limit_oid = t.limit_oid ∧
    (StrategyIndMarginTrade.orderTradedEntry t d).1.stop_oid = t.stop_oid := by
  unfold StrategyIndMarginTrade.orderTradedEntry
  dsimp only
  split_ifs <;>
    first
    | exact ⟨rfl, rfl, rfl⟩
    | exact entryTail_oids _ _ _

/-- The exit TRADED branch never touches the order-id fields. -/
theorem orderTradedExit_oids (t : StrategyTrade) (d : OrderTradedData) :
    (StrategyIndMarginTrade.orderTradedExit t d).1.create_oid = t.create_oid ∧
    (StrategyIndMarginTrade.orderTradedExit t d).1.limit_oid = t.limit_oid ∧
    (StrategyIndMarginTrade.orderTradedExit t d).1.stop_oid = t.stop_oid := by
  unfold StrategyIndMarginTrade.orderTradedExit
  dsimp only
  split_ifs <;>
    first
    | exact ⟨rfl, rfl, rfl⟩
    | exact exitTail_oids _ _ _
    | exact exitExecTail_oids _ _ _ _

/-- Replaying the same entry TRADED event carrying a positive cumulative
quantity leaves the observable quadruple unchanged. -/
theorem orderTradedEntry_replay (t : StrategyTrade) (d : OrderTradedData) (cum : ℚ)
    (hcum : d.cumulative_filled = some cum) (hpos : 0 < cum) :
    coreObs (StrategyIndMarginTrade.orderTradedEntry
        (StrategyIndMarginTrade.orderTradedEntry t d).1 d).1 =
      coreObs (StrategyIndMarginTrade.orderTradedEntry t d).1 := by
  have hne : cum ≠ 0 := ne_of_gt hpos
  have hself : ∀ a : ℚ, a + (cum - a) = cum := fun a => by ring
  unfold StrategyIndMarginTrade.orderTradedEntry
  rw [hcum]
  simp only [tradedFilled_pos cum hpos, entryQty_some_eq, entryFillState_fst]
  by_cases ha : posOpt d.avg_price = true
  · simp [ha, coreObs, entryFillState_fst]
  · by_cases hx : posOpt d.exec_price = true
    · simp [ha, hx, hself, hne, coreObs, entryFillState_fst]
    · simp [ha, hx, coreObs, entryFillState_fst]

/-- Replaying the same exit TRADED event carrying a positive cumulative
quantity leaves the observable quadruple unchanged. -/
theorem orderTradedExit_replay (t : StrategyTrade) (d : OrderTradedData) (cum : ℚ)
    (hcum : d.cumulative_filled = some cum) (hpos : 0 < cum) :
    coreObs (StrategyIndMarginTrade.orderTradedExit
        (StrategyIndMarginTrade.orderTradedExit t d).1 d).1 =
      coreObs (StrategyIndMarginTrade.orderTradedExit t d).1 := by
  have hne : cum ≠ 0 := ne_of_gt hpos
  have hself : ∀ a : ℚ, a + (cum - a) = cum := fun a => by ring
  unfold StrategyIndMarginTrade.orderTradedExit StrategyIndMarginTrade.exitExecTail
  rw [hcum]
  simp only [tradedFilled_pos cum hpos, exitQty_some_eq, exitFillState_fst]
  by_cases ha : posOpt d.avg_price = true
  · by_cases hd1 : 0 < t.dir
    · by_cases hz : t.aep = 0
      · simp [ha, hd1, hz, coreObs, exitFillState_fst]
      · simp [ha, hd1, hz, coreObs, exitFillState_fst]
    · by_cases hd2 : t.dir < 0
      · by_cases hz : t.aep = 0
        · simp [ha, hd1, hd2, hz, coreObs, exitFillState_fst]
        · simp [ha, hd1, hd2, hz, coreObs, exitFillState_fst]
      · simp [ha, hd1, hd2, coreObs, exitFillState_fst]
  · by_cases hx : posOpt d.exec_price = true
    · by_cases hd1 : 0 < t.dir
      · by_cases hz : t.aep * t.e = 0
        · simp [ha, hx, hd1, hz, hself, hne, coreObs, exitFillState_fst]
        · simp [ha, hx, hd1, hz, hself, hne, coreObs, exitFillState_fst]
      · by_cases hd2 : t.dir < 0
        · by_cases hz : t.aep * t.e = 0
          · simp [ha, hx, hd1, hd2, hz, hself, hne, coreObs, exitFillState_fst]
          · simp [ha, hx, hd1, hd2, hz, hself, hne, coreObs, exitFillState_fst]
        · simp [ha, hx, hd1, hd2, hself, hne, coreObs, exitFillState_fst]
    · simp [ha, hx, coreObs, exitFillState_fst]

/-- C5: replaying the same `SIGNAL_ORDER_TRADED` event a second time (same
order id, same positive cumulative-filled quantity, same price fields)
leaves the filled entry quantity `e`, the average entry price `aep`, and the
entry and exit states unchanged. -/
theorem C5_traded_replay (t : StrategyTrade) (d : OrderTradedData) (cum : ℚ)
    (hcum : d.cumulative_filled = some cum) (hpos : 0 < cum) :
    coreObs (StrategyIndMarginTrade.order_signal
        (StrategyIndMarginTrade.order_signal t (OrderSignal.traded d) none).1
        (OrderSignal.traded d) none).1 =
      coreObs (StrategyIndMarginTrade.order_signal t (OrderSignal.traded d) none).1 := by
  by_cases hco : t.create_oid = some d.id
  · obtain ⟨h1, -, -⟩ := orderTradedEntry_oids t d
    have h2 : (StrategyIndMarginTrade.orderTradedEntry t d).1.create_oid = some d.id :=
      h1.trans hco
    simp only [StrategyIndMarginTrade.order_signal, hco, h2, if_true]
    exact orderTradedEntry_replay t d cum hcum hpos
  · by_cases hor : t.limit_oid = some d.id ∨ t.stop_oid = some d.id
    · obtain ⟨h1, h2, h3⟩ := orderTradedExit_oids t d
      have h4 : ¬ (StrategyIndMarginTrade.orderTradedExit t d).1.create_oid = some d.id := by
        rw [h1]; exact hco
      have h5 : (StrategyIndMarginTrade.orderTradedExit t d).1.limit_oid = some d.id ∨
          (StrategyIndMarginTrade.orderTradedExit t d).1.stop_oid = some d.id := by
        rw [h2, h3]; exact hor
      simp only [StrategyIndMarginTrade.order_signal, hco, hor, h4, h5, if_true,
        if_false, if_neg, ite_true, ite_false]
      exact orderTradedExit_replay t d cum hcum hpos
    · simp only [StrategyIndMarginTrade.order_signal, hco, hor, if_false, ite_false]

/-- Witness for C5: replaying a cumulative fill of 4 at exec price 100 on
the entry order of a fresh trade. -/
theorem C5_traded_replay_witness :
    (OrderTradedData.mk 3 none (some 4) none (some 100)).cumulative_filled =
      some 4 ∧ (0 : ℚ) < 4 ∧
    coreObs (StrategyIndMarginTrade.order_signal
        (StrategyIndMarginTrade.order_signal
          { StrategyTrade.init 60 with create_oid := some 3, oq := 10, op := 100 }
          (OrderSignal.traded (OrderTradedData.mk 3 none (some 4) none (some 100))) none).1
        (OrderSignal.traded (OrderTradedData.mk 3 none (some 4) none (some 100))) none).1 =
      coreObs (StrategyIndMarginTrade.order_signal
        { StrategyTrade.init 60 with create_oid := some 3, oq := 10, op := 100 }
        (OrderSignal.traded (OrderTradedData.mk 3 none (some 4) none (some 100))) none).1 :=
  ⟨rfl, by norm_num,
    C5_traded_replay
      { StrategyTrade.init 60 with create_oid := some 3, oq := 10, op := 100 }
      (OrderTradedData.mk 3 none (some 4) none (some 100)) 4 rfl (by norm_num)⟩

end Siis
